import Mathlib

/-!
Verification of the generic-webhook action (`src/script.mjs` and the bundled
variant that uses the shared auth utilities).  JavaScript strings are embedded
as `List Char`, objects used as string-to-string maps as association lists,
and the two network exchanges (the main request and the OAuth2 token fetch)
are abstracted by explicit response values passed to the embedded functions.
-/

set_option linter.unusedVariables false

/-- JavaScript strings are modelled as lists of characters. -/
abbrev Str := List Char

/-- Models JavaScript `s.startsWith(pat)` as `charsStartWith pat s`. -/
def charsStartWith : Str → Str → Bool
  | [], _ => true
  | _ :: _, [] => false
  | a :: as, b :: bs => a == b && charsStartWith as bs

/-- Models JavaScript `s.includes(pat)` as `charsContain pat s`. -/
def charsContain (pat : Str) : Str → Bool
  | [] => charsStartWith pat []
  | c :: rest => charsStartWith pat (c :: rest) || charsContain pat rest

theorem charsStartWith_append (p t : Str) : charsStartWith p (p ++ t) = true := by
  induction p with
  | nil => rfl
  | cons a as ih => simp [charsStartWith, ih]

theorem charsContain_of_startsWith (p s : Str) (h : charsStartWith p s = true) :
    charsContain p s = true := by
  cases s with
  | nil => simpa [charsContain] using h
  | cons c rest => simp [charsContain, h]

theorem charsContain_append_left (p t : Str) : charsContain p (p ++ t) = true :=
  charsContain_of_startsWith p (p ++ t) (charsStartWith_append p t)

theorem charsContain_cons (p : Str) (c : Char) (s : Str)
    (h : charsContain p s = true) : charsContain p (c :: s) = true := by
  simp [charsContain, h]

theorem charsContain_infix (p l r : Str) : charsContain p (l ++ p ++ r) = true := by
  induction l with
  | nil => simpa using charsContain_append_left p r
  | cons c cs ih => simpa using charsContain_cons p c (cs ++ p ++ r) (by simpa using ih)

/-- Models JavaScript `s.endsWith('/')`. -/
def endsWithSlash (s : Str) : Bool := s.getLast? == some '/'

/-- Models JavaScript `s.startsWith('/')`. -/
def startsWithSlash (s : Str) : Bool := s.head? == some '/'

/-- Models `address.endsWith('/') ? address.slice(0, -1) : address` — strips exactly
one trailing slash (the tail of `getBaseURL`). -/
def stripTrailingSlash (s : Str) : Str :=
  if endsWithSlash s then s.dropLast else s

/-- Models `suffix.startsWith('/') ? suffix : '/' + suffix` — the join step of the
bundled `invoke` (part_001 line 275). -/
def ensureLeadingSlash (s : Str) : Str :=
  if startsWithSlash s then s else '/' :: s

/-- One leading `/` removed if present (used only to state theorems). -/
def stripLeadingSlash (s : Str) : Str :=
  if startsWithSlash s then s.tail else s

/-- The four-branch suffix join of the standalone `invoke`
(`src/script.mjs` lines 107-116): drop one slash of the suffix when both
sides have one, insert a slash when neither has one, else plain append. -/
def joinSuffixV1 (url suffix : Str) : Str :=
  if endsWithSlash url ∧ startsWithSlash suffix then url ++ suffix.tail
  else if ¬ endsWithSlash url ∧ ¬ startsWithSlash suffix then url ++ '/' :: suffix
  else url ++ suffix

/-- Literal message thrown by `getBaseURL` when no address is available. -/
def noURLMsg : Str :=
  "No URL specified. Provide address parameter or ADDRESS environment variable".data

/-- Literal message thrown by the bundled `invoke` when only a suffix is given. -/
def suffixWithoutBaseMsg : Str :=
  ("addressSuffix provided but no base address available. " ++
   "Provide either address parameter or ADDRESS environment variable").data

/-- Embeds `getBaseURL(params, context)` (part_001 lines 154-164): prefer
`params.address`, else `env.ADDRESS`; throw if neither; strip exactly one
trailing slash.  Absent/empty strings are both falsy in JavaScript, so an
absent field is modelled as `[]`. -/
def getBaseURL (address envADDRESS : Str) : Except Str Str :=
  let chosen := if address ≠ [] then address else envADDRESS
  if chosen = [] then .error noURLMsg
  else .ok (stripTrailingSlash chosen)

/-- The URL-resolution step of the bundled `invoke` (part_001 lines 260-277):
`getBaseURL`, with the error replaced by `suffixWithoutBaseMsg` when a suffix
was supplied, then the suffix appended with a guaranteed leading slash. -/
def buildURL (address envADDRESS suffix : Str) : Except Str Str :=
  match getBaseURL address envADDRESS with
  | .error e => if suffix ≠ [] then .error suffixWithoutBaseMsg else .error e
  | .ok base => .ok (if suffix ≠ [] then base ++ ensureLeadingSlash suffix else base)

theorem endsWithSlash_decomp (s : Str) (h : endsWithSlash s = true) :
    s = s.dropLast ++ ['/'] := by
  have hne : s ≠ [] := by
    intro hnil; subst hnil; simp [endsWithSlash] at h
  have hlast : s.getLast hne = '/' := by
    have := List.getLast?_eq_getLast s hne
    simp [endsWithSlash, this] at h
    exact h
  conv_lhs => rw [← List.dropLast_append_getLast hne, hlast]

theorem startsWithSlash_decomp (s : Str) (h : startsWithSlash s = true) :
    s = '/' :: s.tail := by
  cases s with
  | nil => simp [startsWithSlash] at h
  | cons c t =>
    simp [startsWithSlash] at h
    simp [h]

theorem ensureLeadingSlash_eq (s : Str) :
    ensureLeadingSlash s = '/' :: stripLeadingSlash s := by
  by_cases h : startsWithSlash s = true
  · rw [ensureLeadingSlash, stripLeadingSlash, if_pos h, if_pos h]
    exact startsWithSlash_decomp s h
  · rw [ensureLeadingSlash, stripLeadingSlash, if_neg h, if_neg h]

theorem joinSuffixV1_eq_decomp (url suffix : Str) :
    joinSuffixV1 url suffix =
      stripTrailingSlash url ++ '/' :: stripLeadingSlash suffix := by
  by_cases hu : endsWithSlash url = true
  · by_cases hs : startsWithSlash suffix = true
    · rw [joinSuffixV1, if_pos ⟨hu, hs⟩, stripTrailingSlash, if_pos hu,
        stripLeadingSlash, if_pos hs]
      conv_lhs => rw [endsWithSlash_decomp url hu]
      simp
    · rw [joinSuffixV1, if_neg (by simp [hu, hs]), if_neg (by simp [hu]),
        stripTrailingSlash, if_pos hu, stripLeadingSlash, if_neg hs]
      conv_lhs => rw [endsWithSlash_decomp url hu]
      simp
  · by_cases hs : startsWithSlash suffix = true
    · rw [joinSuffixV1, if_neg (by simp [hu]), if_neg (by simp [hs]),
        stripTrailingSlash, if_neg hu, stripLeadingSlash, if_pos hs]
      conv_lhs => rw [startsWithSlash_decomp suffix hs]
    · rw [joinSuffixV1, if_neg (by simp [hu]), if_pos ⟨by simp [hu], by simp [hs]⟩,
        stripTrailingSlash, if_neg hu, stripLeadingSlash, if_neg hs]

/-- Abbreviation for `charsContain "//"`. -/
def hasDoubleSlash (s : Str) : Bool := charsContain ['/', '/'] s

theorem stripTrailing_no_doubleslash (base : Str)
    (h : hasDoubleSlash base = false) :
    endsWithSlash (stripTrailingSlash base) = false := by
  by_cases hb : endsWithSlash base = true
  · rw [stripTrailingSlash, if_pos hb]
    by_cases hd : endsWithSlash base.dropLast = true
    · exfalso
      have h1 : base = base.dropLast ++ ['/'] := endsWithSlash_decomp base hb
      have h2 : base.dropLast = base.dropLast.dropLast ++ ['/'] :=
        endsWithSlash_decomp base.dropLast hd
      have : base = base.dropLast.dropLast ++ ['/', '/'] ++ [] := by
        rw [h1]; conv_lhs => rw [h2]
        simp
      rw [this, hasDoubleSlash, charsContain_infix] at h
      simp at h
    · simpa using hd
  · rw [stripTrailingSlash, if_neg hb]
    simpa using hb

theorem stripLeading_no_doubleslash (suffix : Str)
    (h : hasDoubleSlash suffix = false) :
    startsWithSlash (stripLeadingSlash suffix) = false := by
  by_cases hs : startsWithSlash suffix = true
  · rw [stripLeadingSlash, if_pos hs]
    by_cases hd : startsWithSlash suffix.tail = true
    · exfalso
      have h1 : suffix = '/' :: suffix.tail := startsWithSlash_decomp suffix hs
      have h2 : suffix.tail = '/' :: suffix.tail.tail :=
        startsWithSlash_decomp suffix.tail hd
      have : suffix = [] ++ ['/', '/'] ++ suffix.tail.tail := by
        rw [h1]; conv_lhs => rw [h2]
        simp
      rw [this, hasDoubleSlash, charsContain_infix] at h
      simp at h
    · simpa using hd
  · rw [stripLeadingSlash, if_neg hs]
    simpa using hs

/-- C2: the URL composer prefers the explicit address over the environment
address, strips exactly one trailing slash from the chosen base, strips one
leading slash from the suffix if present, and joins the two with exactly one
inserted separator; the standalone variant's four-branch join produces the
same string; and whenever neither the chosen base nor the suffix itself
contains a double slash, the join point carries exactly one slash. -/
theorem c2_url_join (address envADDRESS suffix : Str)
    (hsuf : suffix ≠ []) (hbase : address ≠ [] ∨ envADDRESS ≠ []) :
    buildURL address envADDRESS suffix =
      .ok (stripTrailingSlash (if address ≠ [] then address else envADDRESS) ++
           '/' :: stripLeadingSlash suffix)
  ∧ joinSuffixV1 (if address ≠ [] then address else envADDRESS) suffix =
      stripTrailingSlash (if address ≠ [] then address else envADDRESS) ++
        '/' :: stripLeadingSlash suffix
  ∧ (hasDoubleSlash (if address ≠ [] then address else envADDRESS) = false →
     hasDoubleSlash suffix = false →
       endsWithSlash
         (stripTrailingSlash (if address ≠ [] then address else envADDRESS)) = false ∧
       startsWithSlash (stripLeadingSlash suffix) = false) := by
  have hch : (if address ≠ [] then address else envADDRESS) ≠ [] := by
    by_cases ha : address = []
    · simpa [ha] using hbase.resolve_left (by simp [ha])
    · simp [ha]
  refine ⟨?_, joinSuffixV1_eq_decomp _ suffix, ?_⟩
  · have hg : getBaseURL address envADDRESS =
        .ok (stripTrailingSlash (if address ≠ [] then address else envADDRESS)) := by
      simp only [getBaseURL]
      rw [if_neg (by simpa using hch)]
    simp [buildURL, hg, hsuf, ensureLeadingSlash_eq]
  · intro h1 h2
    exact ⟨stripTrailing_no_doubleslash _ h1, stripLeading_no_doubleslash _ h2⟩

/-- Concrete instance of `c2_url_join`: an explicit address with a trailing
slash joined with a suffix that lacks a leading slash. -/
theorem c2_url_join_witness :
    buildURL "https://api.example.com/".data [] "items".data =
      .ok "https://api.example.com/items".data :=
  (c2_url_join "https://api.example.com/".data [] "items".data
      (by decide) (Or.inl (by decide))).1

/-- C2 as stated is false: a base whose text already ends in `//` keeps a
slash after the single strip, so the composed URL carries a double slash
straddling the base/suffix join point. -/
theorem c2_counterexample :
    buildURL "a//".data [] "p".data =
      .ok (stripTrailingSlash "a//".data ++ ensureLeadingSlash "p".data)
  ∧ endsWithSlash (stripTrailingSlash "a//".data) = true
  ∧ startsWithSlash (ensureLeadingSlash "p".data) = true
  ∧ hasDoubleSlash (stripTrailingSlash "a//".data ++ ensureLeadingSlash "p".data) = true := by
  refine ⟨rfl, by decide, by decide, by decide⟩

/-- A JavaScript object used as a string-to-string map (header mappings).
Keys are unique; `setHeader` replaces an existing entry in place, matching
property assignment. -/
abbrev Headers := List (Str × Str)

/-- Property read `obj[k]`: `none` models `undefined`. -/
def getHeader : Headers → Str → Option Str
  | [], _ => none
  | (k, v) :: rest, key => if k = key then some v else getHeader rest key

/-- Property write `obj[k] = v`. -/
def setHeader : Headers → Str → Str → Headers
  | [], key, value => [(key, value)]
  | (k, v) :: rest, key, value =>
      if k = key then (k, value) :: rest else (k, v) :: setHeader rest key value

/-- Truthiness of `obj[k]` in JavaScript: present with a non-empty string. -/
def headerTruthy (h : Headers) (key : Str) : Bool :=
  match getHeader h key with
  | some v => v ≠ []
  | none => false

theorem getHeader_setHeader_same (h : Headers) (key value : Str) :
    getHeader (setHeader h key value) key = some value := by
  induction h with
  | nil => simp [setHeader, getHeader]
  | cons kv rest ih =>
    obtain ⟨k, v⟩ := kv
    by_cases hk : k = key
    · simp [setHeader, getHeader, hk]
    · simp [setHeader, getHeader, hk, ih]

theorem getHeader_setHeader_other (h : Headers) (key key' value : Str)
    (hne : key' ≠ key) :
    getHeader (setHeader h key value) key' = getHeader h key' := by
  have hne' : ¬ (key = key') := fun hc => hne hc.symm
  induction h with
  | nil => simp [setHeader, getHeader, hne']
  | cons kv rest ih =>
    obtain ⟨k, v⟩ := kv
    by_cases hk : k = key
    · subst hk
      simp [setHeader, getHeader, hne']
    · simp only [setHeader, if_neg hk]
      by_cases hk' : k = key'
      · simp [getHeader, hk']
      · simp [getHeader, hk', ih]

theorem headerTruthy_setHeader_other (h : Headers) (key key' value : Str)
    (hne : key' ≠ key) :
    headerTruthy (setHeader h key value) key' = headerTruthy h key' := by
  rw [headerTruthy, headerTruthy, getHeader_setHeader_other h key key' value hne]

/-- The list `['POST', 'PUT', 'PATCH', 'DELETE']` from `makeWebhookRequest`. -/
def methodsWithBody : List Str :=
  ["POST".data, "PUT".data, "PATCH".data, "DELETE".data]

/-- JavaScript `method.toUpperCase()` (ASCII; all method names are ASCII). -/
def toUpperChars (s : Str) : Str := s.map Char.toUpper

/-- The truthiness test `body &&` on the body parameter: a supplied non-empty
string. -/
def bodyTruthy : Option Str → Bool
  | some s => s ≠ []
  | none => false

/-- The `options` object handed to `fetch`. -/
structure RequestOptions where
  method : Str
  headers : Headers
  body : Option Str
  deriving DecidableEq

/-- Lines 18-31 of `makeWebhookRequest`: uppercase the method, attach the
body only for the four body-bearing methods when the body is truthy, and
inject `Content-Type: application/json` only in that case and only when
neither the exact key `Content-Type` nor `content-type` is already truthy. -/
def buildRequestOptions (method : Str) (headers : Headers) (body : Option Str) :
    RequestOptions :=
  let m := toUpperChars method
  if methodsWithBody.contains m && bodyTruthy body then
    let h :=
      if !headerTruthy headers "Content-Type".data &&
         !headerTruthy headers "content-type".data then
        setHeader headers "Content-Type".data "application/json".data
      else headers
    { method := m, headers := h, body := body }
  else { method := m, headers := headers, body := none }

/-- The response delivered by `fetch`: a status code and a body read that can
fail (`none` models `response.text()` throwing). -/
structure HTTPResponse where
  status : Int
  text : Option Str

/-- The `{statusCode, body, success}` object built by `makeWebhookRequest`. -/
structure WebhookResult where
  statusCode : Int
  body : Str
  success : Bool
  deriving DecidableEq

/-- Lines 44-47: `success = 2xx OR acceptedStatusCodes.includes(status)`. -/
def isSuccess (status : Int) (acceptedStatusCodes : List Int) : Bool :=
  (decide (200 ≤ status) && decide (status < 300)) ||
    acceptedStatusCodes.contains status

/-- Embeds `makeWebhookRequest` with the network exchange abstracted by `resp`:
returns the dispatched options and the classified result.  The function is
total — a non-2xx status never raises, it only makes `success` false, and a
failing body read (`resp.text = none`) falls back to the empty string. -/
def makeWebhookRequest (method url : Str) (headers : Headers) (body : Option Str)
    (acceptedStatusCodes : List Int) (resp : HTTPResponse) :
    RequestOptions × WebhookResult :=
  let options := buildRequestOptions method headers body
  let responseBody := match resp.text with
    | some t => t
    | none => []
  (options,
   { statusCode := resp.status, body := responseBody,
     success := isSuccess resp.status acceptedStatusCodes })

/-- C1: the success flag is true exactly when the status is in [200, 300) or
is a member of the caller-supplied accepted list; the executor computes this
boolean for every response instead of raising on non-2xx statuses. -/
theorem c1_success_flag (method url : Str) (headers : Headers) (body : Option Str)
    (acceptedStatusCodes : List Int) (resp : HTTPResponse) :
    (makeWebhookRequest method url headers body acceptedStatusCodes resp).2.success = true ↔
      ((200 ≤ resp.status ∧ resp.status < 300) ∨ resp.status ∈ acceptedStatusCodes) := by
  simp [makeWebhookRequest, isSuccess, List.elem_iff]

/-- C4: a body is attached only when the uppercased method is one of POST,
PUT, PATCH, DELETE; GET, HEAD and OPTIONS never carry one, even when a
request body was supplied. -/
theorem c4_body_only_for_write_methods (method url : Str) (headers : Headers)
    (body : Option Str) (acceptedStatusCodes : List Int) (resp : HTTPResponse) :
    ((makeWebhookRequest method url headers body acceptedStatusCodes resp).1.body ≠ none →
        toUpperChars method ∈ methodsWithBody)
  ∧ (toUpperChars method = "GET".data ∨ toUpperChars method = "HEAD".data ∨
       toUpperChars method = "OPTIONS".data →
        (makeWebhookRequest method url headers body acceptedStatusCodes resp).1.body = none) := by
  constructor
  · intro hbody
    by_cases hp : toUpperChars method ∈ methodsWithBody ∧ bodyTruthy body = true
    · exact hp.1
    · exfalso
      apply hbody
      simp [makeWebhookRequest, buildRequestOptions, hp]
  · intro hm
    have hnot : ¬ (toUpperChars method ∈ methodsWithBody ∧ bodyTruthy body = true) := by
      intro hp
      have h1 := hp.1
      rcases hm with h | h | h <;> rw [h] at h1 <;> revert h1 <;> decide
    simp [makeWebhookRequest, buildRequestOptions, hnot]

/-- Concrete instance of `c4_body_only_for_write_methods`: a GET request with
a supplied body is dispatched without one. -/
theorem c4_witness :
    (makeWebhookRequest "get".data "u".data [] (some "payload".data) []
        ⟨200, some []⟩).1.body = none :=
  (c4_body_only_for_write_methods "get".data "u".data [] (some "payload".data) []
      ⟨200, some []⟩).2 (Or.inl (by decide))

/-- C9: for the body-bearing methods an empty-string body is falsy, so no
body is attached and no Content-Type header is injected — the dispatched
headers are exactly the input headers. -/
theorem c9_empty_body_dropped (method url : Str) (headers : Headers)
    (acceptedStatusCodes : List Int) (resp : HTTPResponse)
    (hm : toUpperChars method ∈ methodsWithBody) :
    (makeWebhookRequest method url headers (some []) acceptedStatusCodes resp).1.body = none
  ∧ (makeWebhookRequest method url headers (some []) acceptedStatusCodes resp).1.headers
      = headers := by
  have hnot : ¬ (toUpperChars method ∈ methodsWithBody ∧ bodyTruthy (some []) = true) := by
    intro hp
    simpa [bodyTruthy] using hp.2
  constructor <;> simp [makeWebhookRequest, buildRequestOptions, hnot]

/-- Concrete instance of `c9_empty_body_dropped` at method POST. -/
theorem c9_witness :
    (makeWebhookRequest "POST".data "u".data [] (some []) [] ⟨200, some []⟩).1.body = none
  ∧ (makeWebhookRequest "POST".data "u".data [] (some []) [] ⟨200, some []⟩).1.headers = [] :=
  c9_empty_body_dropped "POST".data "u".data [] [] ⟨200, some []⟩ (by decide)

/-- A parsed JSON value (`JSON.parse` result).  Number lexemes are kept as
written; `jobject` keeps the fields in source order. -/
inductive JSValue where
  | jnull
  | jbool (b : Bool)
  | jnum (lexeme : Str)
  | jstr (s : Str)
  | jarr (items : List JSValue)
  | jobject (fields : List (Str × JSValue))

/-- JSON insignificant whitespace. -/
def isWsChar (c : Char) : Bool := c = ' ' || c = '\t' || c = '\n' || c = '\r'

def skipWs : Str → Str
  | [] => []
  | c :: t => if isWsChar c then skipWs t else c :: t

def hexDigitVal : Char → Option Nat
  | c =>
    if '0' ≤ c ∧ c ≤ '9' then some (c.toNat - '0'.toNat)
    else if 'a' ≤ c ∧ c ≤ 'f' then some (c.toNat - 'a'.toNat + 10)
    else if 'A' ≤ c ∧ c ≤ 'F' then some (c.toNat - 'A'.toNat + 10)
    else none

/-- The single-character escapes of the JSON grammar. -/
def escapeChar : Char → Option Char
  | '"' => some '"'
  | '\\' => some '\\'
  | '/' => some '/'
  | 'b' => some (Char.ofNat 8)
  | 'f' => some (Char.ofNat 12)
  | 'n' => some '\n'
  | 'r' => some '\r'
  | 't' => some '\t'
  | _ => none

/-- Body of a JSON string literal, after the opening quote.  Returns the
decoded characters and the input past the closing quote.  Surrogate pairs
are not recombined (each `\uXXXX` becomes one character). -/
def parseStringBody : Nat → Str → Except Str (Str × Str)
  | 0, _ => .error "JSON string too long".data
  | _ + 1, [] => .error "Unterminated string in JSON".data
  | fuel + 1, c :: rest =>
    if c = '"' then .ok ([], rest)
    else if c = '\\' then
      match rest with
      | [] => .error "Bad escape in JSON string".data
      | e :: rest2 =>
        if e = 'u' then
          match rest2 with
          | h1 :: h2 :: h3 :: h4 :: rest3 =>
            match hexDigitVal h1, hexDigitVal h2, hexDigitVal h3, hexDigitVal h4 with
            | some a, some b, some c', some d =>
              match parseStringBody fuel rest3 with
              | .error err => .error err
              | .ok (tail, rem) =>
                  .ok (Char.ofNat (a * 4096 + b * 256 + c' * 16 + d) :: tail, rem)
            | _, _, _, _ => .error "Bad Unicode escape in JSON string".data
          | _ => .error "Bad Unicode escape in JSON string".data
        else
          match escapeChar e with
          | some d =>
            match parseStringBody fuel rest2 with
            | .error err => .error err
            | .ok (tail, rem) => .ok (d :: tail, rem)
          | none => .error "Bad escape in JSON string".data
    else if c.toNat < 32 then .error "Bad control character in JSON string".data
    else
      match parseStringBody fuel rest with
      | .error err => .error err
      | .ok (tail, rem) => .ok (c :: tail, rem)

/-- A JSON number lexeme: `-? (0 | [1-9][0-9]*) (. [0-9]+)? ([eE][+-]?[0-9]+)?`.
Returns the lexeme and the remaining input. -/
def parseNumberLexeme (s : Str) : Option (Str × Str) :=
  let (neg, s1) := match s with
    | '-' :: t => (['-'], t)
    | _ => (([] : Str), s)
  match s1 with
  | [] => none
  | d :: _ =>
    if ¬ d.isDigit then none
    else
      let (intPart, s2) :=
        match s1 with
        | '0' :: t => (['0'], t)
        | _ => (s1.takeWhile Char.isDigit, s1.dropWhile Char.isDigit)
      let (fracPart, s3) :=
        match s2 with
        | '.' :: t =>
          if (t.takeWhile Char.isDigit) = [] then (none, s2)
          else (some ('.' :: t.takeWhile Char.isDigit), t.dropWhile Char.isDigit)
        | _ => (none, s2)
      match fracPart, s2 with
      | none, '.' :: _ => none
      | _, _ =>
        let (expPart, s4) :=
          match s3 with
          | e :: t =>
            if e = 'e' ∨ e = 'E' then
              let (sign, t2) := match t with
                | '+' :: t' => (['+'], t')
                | '-' :: t' => (['-'], t')
                | _ => (([] : Str), t)
              if (t2.takeWhile Char.isDigit) = [] then (none, s3)
              else (some (e :: sign ++ t2.takeWhile Char.isDigit), t2.dropWhile Char.isDigit)
            else (none, s3)
          | [] => (none, s3)
        match expPart, s3 with
        | none, e :: _ =>
          if e = 'e' ∨ e = 'E' then none
          else some (neg ++ intPart ++ (fracPart.getD []) ++ [], s3)
        | none, [] => some (neg ++ intPart ++ (fracPart.getD []) ++ [], s3)
        | some ex, _ => some (neg ++ intPart ++ (fracPart.getD []) ++ ex, s4)

mutual

/-- One JSON value starting at `s` (recursive descent, fuel-indexed); returns
the value and the rest of the input.  Models the grammar `JSON.parse`
accepts; error strings stand for the engine's `SyntaxError` messages. -/
def parseValue : Nat → Str → Except Str (JSValue × Str)
  | 0, _ => .error "JSON input too deeply nested".data
  | fuel + 1, s =>
    match skipWs s with
    | [] => .error "Unexpected end of JSON input".data
    | c :: rest =>
      if c = '{' then
        match skipWs rest with
        | '}' :: rest2 => .ok (.jobject [], rest2)
        | rest2 => parseMembers fuel rest2 []
      else if c = '[' then
        match skipWs rest with
        | ']' :: rest2 => .ok (.jarr [], rest2)
        | rest2 => parseItems fuel rest2 []
      else if c = '"' then
        match parseStringBody (rest.length + 1) rest with
        | .error e => .error e
        | .ok (str, rest2) => .ok (.jstr str, rest2)
      else if charsStartWith "true".data (c :: rest) then
        .ok (.jbool true, (c :: rest).drop 4)
      else if charsStartWith "false".data (c :: rest) then
        .ok (.jbool false, (c :: rest).drop 5)
      else if charsStartWith "null".data (c :: rest) then
        .ok (.jnull, (c :: rest).drop 4)
      else
        match parseNumberLexeme (c :: rest) with
        | some (lex, rest2) => .ok (.jnum lex, rest2)
        | none => .error ("Unexpected token in JSON: ".data ++ [c])

/-- The elements of a non-empty JSON array, after `[`. -/
def parseItems : Nat → Str → List JSValue → Except Str (JSValue × Str)
  | 0, _, _ => .error "JSON input too deeply nested".data
  | fuel + 1, s, acc =>
    match parseValue fuel s with
    | .error e => .error e
    | .ok (v, rest) =>
      match skipWs rest with
      | ',' :: rest2 => parseItems fuel rest2 (acc ++ [v])
      | ']' :: rest2 => .ok (.jarr (acc ++ [v]), rest2)
      | _ => .error "Expected comma or closing bracket in JSON array".data

/-- The members of a non-empty JSON object, after `\x7b`. -/
def parseMembers : Nat → Str → List (Str × JSValue) → Except Str (JSValue × Str)
  | 0, _, _ => .error "JSON input too deeply nested".data
  | fuel + 1, s, acc =>
    match skipWs s with
    | '"' :: rest =>
      match parseStringBody (rest.length + 1) rest with
      | .error e => .error e
      | .ok (key, rest2) =>
        match skipWs rest2 with
        | ':' :: rest3 =>
          match parseValue fuel rest3 with
          | .error e => .error e
          | .ok (v, rest4) =>
            match skipWs rest4 with
            | ',' :: rest5 => parseMembers fuel rest5 (acc ++ [(key, v)])
            | '}' :: rest5 => .ok (.jobject (acc ++ [(key, v)]), rest5)
            | _ => .error "Expected comma or closing brace in JSON object".data
        | _ => .error "Expected colon in JSON object".data
    | _ => .error "Expected string key in JSON object".data

end

/-- Models `JSON.parse(s)`: one value, whole input consumed up to whitespace. -/
def jsonParse (s : Str) : Except Str JSValue :=
  match parseValue (s.length + 1) s with
  | .error e => .error e
  | .ok (v, rest) =>
    if skipWs rest = [] then .ok v
    else .error "Unexpected trailing characters after JSON value".data

def hexDigitChar (n : Nat) : Char := "0123456789abcdef".data.getD n '0'

/-- JSON string-literal escaping used by `JSON.stringify`. -/
def escapeJSONChar (c : Char) : Str :=
  if c = '"' then ['\\', '"']
  else if c = '\\' then ['\\', '\\']
  else if c = '\n' then ['\\', 'n']
  else if c = '\r' then ['\\', 'r']
  else if c = '\t' then ['\\', 't']
  else if c = Char.ofNat 8 then ['\\', 'b']
  else if c = Char.ofNat 12 then ['\\', 'f']
  else if c.toNat < 32 then
    ['\\', 'u', '0', '0', hexDigitChar (c.toNat / 16), hexDigitChar (c.toNat % 16)]
  else [c]

mutual

/-- Compact `JSON.stringify` (no extra whitespace, keys in stored order);
number lexemes are emitted as parsed. -/
def jsonStringify : JSValue → Str
  | .jnull => "null".data
  | .jbool true => "true".data
  | .jbool false => "false".data
  | .jnum lex => lex
  | .jstr s => '"' :: (s.flatMap escapeJSONChar ++ ['"'])
  | .jarr items => '[' :: (stringifyItems items ++ [']'])
  | .jobject fields => Char.ofNat 123 :: (stringifyFields fields ++ [Char.ofNat 125])

def stringifyItems : List JSValue → Str
  | [] => []
  | [v] => jsonStringify v
  | v :: rest => jsonStringify v ++ ',' :: stringifyItems rest

def stringifyFields : List (Str × JSValue) → Str
  | [] => []
  | [(k, v)] => '"' :: (k.flatMap escapeJSONChar ++ '"' :: ':' :: jsonStringify v)
  | (k, v) :: rest =>
      '"' :: (k.flatMap escapeJSONChar ++ '"' :: ':' :: jsonStringify v) ++
        ',' :: stringifyFields rest

end

/-- Property access `v.access_token` on a parsed JSON value: only objects
have properties; with duplicate keys `JSON.parse` keeps the last value. -/
def lookupField : List (Str × JSValue) → Str → Option JSValue
  | [], _ => none
  | (k, v) :: rest, key =>
    match lookupField rest key with
    | some r => some r
    | none => if k = key then some v else none

def jsGetField : JSValue → Str → Option JSValue
  | .jobject fields, key => lookupField fields key
  | _, _ => none

/-- A valid JSON number lexeme denotes zero iff its mantissa has no nonzero
digit. -/
def numLexemeIsZero (lex : Str) : Bool :=
  (lex.takeWhile (fun c => c ≠ 'e' ∧ c ≠ 'E')).all (fun c => !c.isDigit || c == '0')

/-- JavaScript truthiness of a parsed JSON value. -/
def jsTruthy : JSValue → Bool
  | .jnull => false
  | .jbool b => b
  | .jnum lex => !numLexemeIsZero lex
  | .jstr s => decide (s ≠ [])
  | .jarr _ => true
  | .jobject _ => true

mutual

/-- Template-literal conversion of a value to a string, as in
`` `Bearer ${token}` `` (number lexemes are kept as parsed rather than
re-normalised by the engine). -/
def jsToDisplay : JSValue → Str
  | .jnull => "null".data
  | .jbool true => "true".data
  | .jbool false => "false".data
  | .jnum lex => lex
  | .jstr s => s
  | .jarr items => displayItems items
  | .jobject _ => "[object Object]".data

def displayItems : List JSValue → Str
  | [] => []
  | [v] => jsToDisplay v
  | v :: rest => jsToDisplay v ++ ',' :: displayItems rest

end

/-- The base64 alphabet used by `btoa`. -/
def b64Alphabet : Str :=
  "ABCDEFGHIJKLMNOPQRSTUVWXYZabcdefghijklmnopqrstuvwxyz0123456789+/".data

def b64Char (n : Nat) : Char := b64Alphabet.getD n '='

/-- Models `btoa`: base64 of a Latin-1 string (credentials are assumed to be in the
0-255 range, as `btoa` raises beyond it). -/
def btoa : Str → Str
  | [] => []
  | [a] =>
    let x := a.toNat % 256
    [b64Char (x / 4), b64Char (x % 4 * 16), '=', '=']
  | [a, b] =>
    let x := a.toNat % 256
    let y := b.toNat % 256
    [b64Char (x / 4), b64Char (x % 4 * 16 + y / 16), b64Char (y % 16 * 4), '=']
  | a :: b :: c :: rest =>
    let x := a.toNat % 256
    let y := b.toNat % 256
    let z := c.toNat % 256
    b64Char (x / 4) :: b64Char (x % 4 * 16 + y / 16) ::
      b64Char (y % 16 * 4 + z / 64) :: b64Char (z % 64) :: btoa rest

/-- Decimal rendering of the interpolated `response.status`. -/
def intToChars (i : Int) : Str :=
  if i < 0 then '-' :: Nat.toDigits 10 i.natAbs else Nat.toDigits 10 i.natAbs

/-- The constant `'SGNL-CAEP-Hub/2.0'` (part_001 line 14). -/
def SGNL_USER_AGENT : Str := "SGNL-CAEP-Hub/2.0".data

/-- Secrets consulted by `getAuthorizationHeader`; an absent secret is the
empty string (both are falsy in JavaScript). -/
structure Secrets where
  BEARER_AUTH_TOKEN : Str := []
  BASIC_USERNAME : Str := []
  BASIC_PASSWORD : Str := []
  OAUTH2_AUTHORIZATION_CODE_ACCESS_TOKEN : Str := []
  OAUTH2_CLIENT_CREDENTIALS_CLIENT_SECRET : Str := []

/-- Environment values consulted by the resolver and the URL builder. -/
structure Env where
  ADDRESS : Str := []
  OAUTH2_CLIENT_CREDENTIALS_TOKEN_URL : Str := []
  OAUTH2_CLIENT_CREDENTIALS_CLIENT_ID : Str := []
  OAUTH2_CLIENT_CREDENTIALS_SCOPE : Str := []
  OAUTH2_CLIENT_CREDENTIALS_AUDIENCE : Str := []
  OAUTH2_CLIENT_CREDENTIALS_AUTH_STYLE : Str := []

/-- The `context` object as consumed by the auth utilities. -/
structure AuthContext where
  environment : Env := {}
  secrets : Secrets := {}

/-- The config object handed to `getClientCredentialsToken`. -/
structure OAuth2Config where
  tokenUrl : Str
  clientId : Str
  clientSecret : Str
  scope : Str
  audience : Str
  authStyle : Str

/-- The token endpoint's reply (the network exchange of the client
credentials flow, abstracted): `ok` is `response.ok`, `bodyText` the raw
body handed to `response.json()` / `response.text()`. -/
structure TokenResponse where
  ok : Bool
  status : Int
  statusText : Str
  bodyText : Str

def clientCredsRequireMsg : Str :=
  "OAuth2 Client Credentials flow requires tokenUrl, clientId, and clientSecret".data

def noAccessTokenMsg : Str := "No access_token in OAuth2 response".data

def missingOAuth2ConfigMsg : Str :=
  "OAuth2 Client Credentials flow requires TOKEN_URL and CLIENT_ID in env".data

def noAuthConfiguredMsg : Str :=
  ("No authentication configured. Provide one of: " ++
   "BEARER_AUTH_TOKEN, BASIC_USERNAME/BASIC_PASSWORD, " ++
   "OAUTH2_AUTHORIZATION_CODE_ACCESS_TOKEN, or OAUTH2_CLIENT_CREDENTIALS_*").data

/-- Embeds `getClientCredentialsToken` (part_001 lines 27-85) with the POST to the
token URL abstracted by `resp`: validate the config, fail with the captured
body (structured JSON preferred over raw text) on a non-ok response, then
require a truthy `access_token` field in the parsed JSON reply. -/
def getClientCredentialsToken (config : OAuth2Config) (resp : TokenResponse) :
    Except Str Str :=
  if config.tokenUrl = [] ∨ config.clientId = [] ∨ config.clientSecret = [] then
    .error clientCredsRequireMsg
  else if resp.ok = false then
    let errorText :=
      match jsonParse resp.bodyText with
      | .ok v => jsonStringify v
      | .error _ => resp.bodyText
    .error ("OAuth2 token request failed: ".data ++ intToChars resp.status ++
            ' ' :: resp.statusText ++ " - ".data ++ errorText)
  else
    match jsonParse resp.bodyText with
    | .error e => .error e
    | .ok data =>
      match jsGetField data "access_token".data with
      | some tok =>
        if jsTruthy tok then .ok (jsToDisplay tok) else .error noAccessTokenMsg
      | none => .error noAccessTokenMsg

/-- Models the normalisation `token.startsWith('Bearer ') ? token : prefixed token`. -/
def bearerNormalize (token : Str) : Str :=
  if charsStartWith "Bearer ".data token then token else "Bearer ".data ++ token

/-- Embeds `getAuthorizationHeader` (part_001 lines 96-145): the four mechanisms in
source order — bearer token, basic auth, pre-issued OAuth2 access token,
OAuth2 client credentials — each guarded by the truthiness of its secrets;
`oracle` stands for the token endpoint's reply if the fourth runs. -/
def getAuthorizationHeader (context : AuthContext) (oracle : TokenResponse) :
    Except Str Str :=
  let env := context.environment
  let secrets := context.secrets
  if secrets.BEARER_AUTH_TOKEN ≠ [] then
    .ok (bearerNormalize secrets.BEARER_AUTH_TOKEN)
  else if secrets.BASIC_PASSWORD ≠ [] ∧ secrets.BASIC_USERNAME ≠ [] then
    .ok ("Basic ".data ++ btoa (secrets.BASIC_USERNAME ++ ':' :: secrets.BASIC_PASSWORD))
  else if secrets.OAUTH2_AUTHORIZATION_CODE_ACCESS_TOKEN ≠ [] then
    .ok (bearerNormalize secrets.OAUTH2_AUTHORIZATION_CODE_ACCESS_TOKEN)
  else if secrets.OAUTH2_CLIENT_CREDENTIALS_CLIENT_SECRET ≠ [] then
    if env.OAUTH2_CLIENT_CREDENTIALS_TOKEN_URL = [] ∨
       env.OAUTH2_CLIENT_CREDENTIALS_CLIENT_ID = [] then
      .error missingOAuth2ConfigMsg
    else
      match getClientCredentialsToken
          { tokenUrl := env.OAUTH2_CLIENT_CREDENTIALS_TOKEN_URL,
            clientId := env.OAUTH2_CLIENT_CREDENTIALS_CLIENT_ID,
            clientSecret := secrets.OAUTH2_CLIENT_CREDENTIALS_CLIENT_SECRET,
            scope := env.OAUTH2_CLIENT_CREDENTIALS_SCOPE,
            audience := env.OAUTH2_CLIENT_CREDENTIALS_AUDIENCE,
            authStyle := env.OAUTH2_CLIENT_CREDENTIALS_AUTH_STYLE } oracle with
      | .ok token => .ok ("Bearer ".data ++ token)
      | .error e => .error e
  else .error noAuthConfiguredMsg

/-- The result of the fourth mechanism, as a function of only the
environment config, the client secret and the token endpoint's reply. -/
def clientCredentialsHeader (env : Env) (clientSecret : Str)
    (oracle : TokenResponse) : Except Str Str :=
  if env.OAUTH2_CLIENT_CREDENTIALS_TOKEN_URL = [] ∨
     env.OAUTH2_CLIENT_CREDENTIALS_CLIENT_ID = [] then
    .error missingOAuth2ConfigMsg
  else
    match getClientCredentialsToken
        { tokenUrl := env.OAUTH2_CLIENT_CREDENTIALS_TOKEN_URL,
          clientId := env.OAUTH2_CLIENT_CREDENTIALS_CLIENT_ID,
          clientSecret := clientSecret,
          scope := env.OAUTH2_CLIENT_CREDENTIALS_SCOPE,
          audience := env.OAUTH2_CLIENT_CREDENTIALS_AUDIENCE,
          authStyle := env.OAUTH2_CLIENT_CREDENTIALS_AUTH_STYLE } oracle with
    | .ok token => .ok ("Bearer ".data ++ token)
    | .error e => .error e

/-- C3: the resolver tries bearer token, then basic auth, then the
pre-issued OAuth2 access token, then OAuth2 client credentials; the first
mechanism whose secrets are truthy fully determines the header — each
right-hand side below mentions only that mechanism's inputs, so no
lower-precedence secret and no network exchange is ever consulted once a
higher mechanism matches. -/
theorem c3_auth_precedence (context : AuthContext) (oracle : TokenResponse) :
    (context.secrets.BEARER_AUTH_TOKEN ≠ [] →
      getAuthorizationHeader context oracle =
        .ok (bearerNormalize context.secrets.BEARER_AUTH_TOKEN))
  ∧ (context.secrets.BEARER_AUTH_TOKEN = [] →
     context.secrets.BASIC_PASSWORD ≠ [] → context.secrets.BASIC_USERNAME ≠ [] →
      getAuthorizationHeader context oracle =
        .ok ("Basic ".data ++
             btoa (context.secrets.BASIC_USERNAME ++ ':' ::
                   context.secrets.BASIC_PASSWORD)))
  ∧ (context.secrets.BEARER_AUTH_TOKEN = [] →
     (context.secrets.BASIC_PASSWORD = [] ∨ context.secrets.BASIC_USERNAME = []) →
     context.secrets.OAUTH2_AUTHORIZATION_CODE_ACCESS_TOKEN ≠ [] →
      getAuthorizationHeader context oracle =
        .ok (bearerNormalize context.secrets.OAUTH2_AUTHORIZATION_CODE_ACCESS_TOKEN))
  ∧ (context.secrets.BEARER_AUTH_TOKEN = [] →
     (context.secrets.BASIC_PASSWORD = [] ∨ context.secrets.BASIC_USERNAME = []) →
     context.secrets.OAUTH2_AUTHORIZATION_CODE_ACCESS_TOKEN = [] →
     context.secrets.OAUTH2_CLIENT_CREDENTIALS_CLIENT_SECRET ≠ [] →
      getAuthorizationHeader context oracle =
        clientCredentialsHeader context.environment
          context.secrets.OAUTH2_CLIENT_CREDENTIALS_CLIENT_SECRET oracle)
  ∧ (context.secrets.BEARER_AUTH_TOKEN = [] →
     (context.secrets.BASIC_PASSWORD = [] ∨ context.secrets.BASIC_USERNAME = []) →
     context.secrets.OAUTH2_AUTHORIZATION_CODE_ACCESS_TOKEN = [] →
     context.secrets.OAUTH2_CLIENT_CREDENTIALS_CLIENT_SECRET = [] →
      getAuthorizationHeader context oracle = .error noAuthConfiguredMsg) := by
  refine ⟨?_, ?_, ?_, ?_, ?_⟩
  · intro h1
    simp [getAuthorizationHeader, h1]
  · intro h1 h2 h3
    simp [getAuthorizationHeader, h1, h2, h3]
  · intro h1 h2 h3
    rcases h2 with h2 | h2 <;> simp [getAuthorizationHeader, h1, h2, h3]
  · intro h1 h2 h3 h4
    rcases h2 with h2 | h2 <;>
      simp [getAuthorizationHeader, clientCredentialsHeader, h1, h2, h3, h4]
  · intro h1 h2 h3 h4
    rcases h2 with h2 | h2 <;> simp [getAuthorizationHeader, h1, h2, h3, h4]

/-- Concrete instance of `c3_auth_precedence`: with a bearer token AND both
basic-auth secrets present, the bearer token wins. -/
theorem c3_witness :
    getAuthorizationHeader
      { secrets := { BEARER_AUTH_TOKEN := "tok".data,
                     BASIC_USERNAME := "u".data, BASIC_PASSWORD := "p".data } }
      ⟨true, 200, [], []⟩ = .ok "Bearer tok".data :=
  (c3_auth_precedence
    { secrets := { BEARER_AUTH_TOKEN := "tok".data,
                   BASIC_USERNAME := "u".data, BASIC_PASSWORD := "p".data } }
    ⟨true, 200, [], []⟩).1 (by decide)

/-- Outcome of the `error` handler: a retry-requested result or a rethrow of
the original error (carrying its message). -/
inductive ErrorOutcome where
  | retryRequested
  | rethrown (msg : Str)
  deriving DecidableEq

/-- The network-related substrings tested first by the `error` handler. -/
def retryableMsg (msg : Str) : Bool :=
  charsContain "ECONNREFUSED".data msg || charsContain "ETIMEDOUT".data msg ||
  charsContain "ENOTFOUND".data msg || charsContain "fetch failed".data msg ||
  charsContain "network".data msg

/-- The validation substrings tested second by the `error` handler. -/
def fatalMsg (msg : Str) : Bool :=
  charsContain "is required".data msg || charsContain "Failed to parse".data msg ||
  charsContain "No URL specified".data msg

/-- The `error` handler (`src/script.mjs` lines 203-229): network substrings
first (retry), then validation substrings (rethrow), else retry.  Each
branch is guarded by `error.message &&`, so a falsy (empty) message falls
through to the default retry. -/
def errorHandler (msg : Str) : ErrorOutcome :=
  if msg ≠ [] ∧ retryableMsg msg = true then .retryRequested
  else if msg ≠ [] ∧ fatalMsg msg = true then .rethrown msg
  else .retryRequested

/-- C6 as stated is false: a message containing both a network substring and
a validation substring is returned as retry-requested, while the claim says
any message containing `is required` is rethrown. -/
theorem c6_counterexample :
    errorHandler "network: method is required".data = .retryRequested
  ∧ charsContain "is required".data "network: method is required".data = true :=
  ⟨rfl, by decide⟩

/-- C6 amended: a message containing a network substring is always retried;
a message containing a validation substring is rethrown only when it
contains no network substring; anything matching neither — including an
empty message — is retried, never silently swallowed. -/
theorem c6_error_classifier (msg : Str) :
    (msg ≠ [] → retryableMsg msg = true → errorHandler msg = .retryRequested)
  ∧ (msg ≠ [] → retryableMsg msg = false → fatalMsg msg = true →
      errorHandler msg = .rethrown msg)
  ∧ (retryableMsg msg = false → fatalMsg msg = false →
      errorHandler msg = .retryRequested)
  ∧ (msg = [] → errorHandler msg = .retryRequested) := by
  refine ⟨?_, ?_, ?_, ?_⟩
  · intro h1 h2
    simp [errorHandler, h1, h2]
  · intro h1 h2 h3
    simp [errorHandler, h1, h2, h3]
  · intro h2 h3
    simp [errorHandler, h2, h3]
  · intro h1
    simp [errorHandler, h1]

/-- Concrete instances of `c6_error_classifier`: a timeout is retried, a
pure validation failure is rethrown. -/
theorem c6_witness :
    errorHandler "ETIMEDOUT".data = .retryRequested
  ∧ errorHandler "method is required".data = .rethrown "method is required".data :=
  ⟨(c6_error_classifier "ETIMEDOUT".data).1 (by decide) (by decide),
   (c6_error_classifier "method is required".data).2.1 (by decide) (by decide) (by decide)⟩

/-- The `requestHeaders` parameter: absent, a JSON-encoded string, or an
already-structured object. -/
inductive HeadersParam where
  | absent
  | str (s : Str)
  | obj (fields : List (Str × JSValue))

/-- The header-normalization step of `invoke` (lines 136-148 / part_001
lines 279-291): start from `\x7b\x7d`; a truthy string is `JSON.parse`d with
failures wrapped as `Failed to parse requestHeaders: ...`; note that the
parsed value is assigned unchecked, whatever JSON value it is; an object is
used as-is. -/
def normalizeHeaders : HeadersParam → Except Str JSValue
  | .absent => .ok (.jobject [])
  | .str s =>
    if s = [] then .ok (.jobject [])
    else
      match jsonParse s with
      | .ok v => .ok v
      | .error e => .error ("Failed to parse requestHeaders: ".data ++ e)
  | .obj fields => .ok (.jobject fields)

def isJObject : JSValue → Bool
  | .jobject _ => true
  | _ => false

/-- C7 as stated is false: the string `42` does not parse as a JSON object,
yet the invocation does not fail with a header-parse error — `JSON.parse`
succeeds and the number is assigned as the headers value. -/
theorem c7_counterexample :
    normalizeHeaders (.str "42".data) = .ok (.jnum "42".data)
  ∧ isJObject (.jnum "42".data) = false :=
  ⟨rfl, rfl⟩

/-- C7 amended: a string-valued `requestHeaders` fails with a message
containing `Failed to parse requestHeaders` (embedding the underlying parse
failure) exactly when the string is not valid JSON; whenever it parses —
in particular as a JSON object — the parsed value is used as the headers. -/
theorem c7_header_parse (s : Str) (hs : s ≠ []) :
    (∀ e, jsonParse s = .error e →
       normalizeHeaders (.str s) = .error ("Failed to parse requestHeaders: ".data ++ e)
     ∧ charsContain "Failed to parse requestHeaders".data
         ("Failed to parse requestHeaders: ".data ++ e) = true)
  ∧ (∀ v, jsonParse s = .ok v → normalizeHeaders (.str s) = .ok v)
  ∧ (∀ fields, jsonParse s = .ok (.jobject fields) →
       normalizeHeaders (.str s) = .ok (.jobject fields)) := by
  refine ⟨?_, ?_, ?_⟩
  · intro e he
    constructor
    · simp [normalizeHeaders, hs, he]
    · have hsplit : "Failed to parse requestHeaders: ".data =
          "Failed to parse requestHeaders".data ++ ": ".data := rfl
      rw [hsplit, List.append_assoc]
      exact charsContain_append_left _ _
  · intro v hv
    simp [normalizeHeaders, hs, hv]
  · intro fields hf
    simp [normalizeHeaders, hs, hf]

/-- Concrete instances of `c7_header_parse`: an unparsable string fails with
the wrapped message, a JSON object is used as parsed. -/
theorem c7_witness :
    normalizeHeaders (.str "not json".data) =
      .error ("Failed to parse requestHeaders: ".data ++
              ("Unexpected token in JSON: ".data ++ ['n']))
  ∧ normalizeHeaders (.str "\x7b\"a\":\"b\"\x7d".data) =
      .ok (.jobject [("a".data, .jstr "b".data)]) :=
  ⟨((c7_header_parse "not json".data (by decide)).1 _ rfl).1,
   (c7_header_parse "\x7b\"a\":\"b\"\x7d".data (by decide)).2.2 _ rfl⟩

/-- The `acceptedStatusCodes` parameter as a JavaScript value: absent, an
array, a string, a number, or some other object. -/
inductive AcceptedCodesParam where
  | absent
  | arr (xs : List Int)
  | str (s : Str)
  | num (n : Int)
  | objVal

/-- JavaScript truthiness of the parameter (arrays and objects are truthy
even when empty; `0` and the empty string are falsy). -/
def acceptedTruthy : AcceptedCodesParam → Bool
  | .absent => false
  | .arr _ => true
  | .str s => decide (s ≠ [])
  | .num n => decide (n ≠ 0)
  | .objVal => true

def digitsToNat (ds : Str) : Nat :=
  ds.foldl (fun acc c => acc * 10 + (c.toNat - '0'.toNat)) 0

/-- The integer denoted by a JSON number lexeme, when it is a plain integer
numeral. -/
def intOfLexeme : Str → Option Int
  | '-' :: ds =>
    if ds ≠ [] ∧ ds.all Char.isDigit then some (-(Int.ofNat (digitsToNat ds))) else none
  | ds =>
    if ds ≠ [] ∧ ds.all Char.isDigit then some (Int.ofNat (digitsToNat ds)) else none

/-- The status codes denoted by a parsed JSON value.  The source assigns the
`JSON.parse` result unchecked; an array of integers is the only shape the
later `includes` call can use without a runtime type error, and the model
extracts exactly those. -/
def jsCodesOf : JSValue → List Int
  | .jarr items =>
    items.filterMap fun v =>
      match v with
      | .jnum lex => intOfLexeme lex
      | _ => none
  | _ => []

/-- The accepted-status-codes step of `invoke` (lines 164-176): start from
`[]`; inside the truthiness guard an array is taken as-is and a string is
`JSON.parse`d with failures wrapped; any other truthy value matches neither
branch and the initial empty array silently survives. -/
def parseAcceptedStatusCodes (p : AcceptedCodesParam) : Except Str (List Int) :=
  if acceptedTruthy p = true then
    match p with
    | .arr xs => .ok xs
    | .str s =>
      match jsonParse s with
      | .ok v => .ok (jsCodesOf v)
      | .error e => .error ("Failed to parse acceptedStatusCodes: ".data ++ e)
    | _ => .ok []
  else .ok []

def isArrParam : AcceptedCodesParam → Bool
  | .arr _ => true
  | _ => false

def isStrParam : AcceptedCodesParam → Bool
  | .str _ => true
  | _ => false

/-- C10: a truthy `acceptedStatusCodes` that is neither an array nor a
string is silently ignored — the parse step succeeds with the empty
sequence, under which only the 2xx range counts as success. -/
theorem c10_ignored_shape (p : AcceptedCodesParam)
    (h1 : acceptedTruthy p = true) (h2 : isArrParam p = false)
    (h3 : isStrParam p = false) :
    parseAcceptedStatusCodes p = .ok []
  ∧ ∀ status : Int, isSuccess status [] = true ↔ (200 ≤ status ∧ status < 300) := by
  constructor
  · cases p with
    | absent => simp [acceptedTruthy] at h1
    | arr xs => simp [isArrParam] at h2
    | str s => simp [isStrParam] at h3
    | num n => simp [parseAcceptedStatusCodes, h1]
    | objVal => simp [parseAcceptedStatusCodes, h1]
  · intro status
    simp [isSuccess]

/-- Concrete instance of `c10_ignored_shape` at the number `404`. -/
theorem c10_witness : parseAcceptedStatusCodes (.num 404) = .ok [] :=
  (c10_ignored_shape (.num 404) (by decide) rfl rfl).1

/-- The substring the caller greps for to swallow the no-auth failure. -/
def noAuthMarker : Str := "No authentication configured".data

/-- The auth step of the bundled `invoke` (part_001 lines 293-305): skipped
when the exact keys `Authorization` or `authorization` are already truthy;
otherwise the resolver's header is assigned, and a resolver failure is
swallowed exactly when its message contains `No authentication configured`,
every other failure propagating. -/
def authStep (headers : Headers) (context : AuthContext) (oracle : TokenResponse) :
    Except Str Headers :=
  if headerTruthy headers "Authorization".data = true ∨
     headerTruthy headers "authorization".data = true then .ok headers
  else
    match getAuthorizationHeader context oracle with
    | .ok authHeader => .ok (setHeader headers "Authorization".data authHeader)
    | .error e =>
      if charsContain noAuthMarker e = true then .ok headers else .error e

/-- The User-Agent step of the bundled `invoke` (part_001 lines 307-310). -/
def userAgentStep (headers : Headers) : Headers :=
  if headerTruthy headers "User-Agent".data = true ∨
     headerTruthy headers "user-agent".data = true then headers
  else setHeader headers "User-Agent".data SGNL_USER_AGENT

/-- The full header pipeline of the bundled `invoke`.  The source never
copies `params.requestHeaders` (`headers = params.requestHeaders`, then
`headers.Authorization = ...` and `headers['User-Agent'] = ...` assign into
that same object), so the returned mapping is also the state of the
caller's object after the invocation. -/
def invokeHeaders (headers : Headers) (context : AuthContext)
    (oracle : TokenResponse) : Except Str Headers :=
  match authStep headers context oracle with
  | .ok h => .ok (userAgentStep h)
  | .error e => .error e

/-- Whether some key equal to `Authorization` up to letter-casing holds a
truthy value (the check C5 claims the code performs). -/
def hasAuthAnyCase (headers : Headers) : Bool :=
  headers.any fun kv => kv.1.map Char.toLower == "authorization".data && !kv.2.isEmpty

/-- C5 as stated is false: a headers mapping carrying the key
`AUTHORIZATION` — an `Authorization` key under different letter-casing —
does not skip resolution: with a bearer secret configured the resolver runs
and a second, computed `Authorization` entry is written. -/
theorem c5_counterexample :
    hasAuthAnyCase [("AUTHORIZATION".data, "x".data)] = true
  ∧ authStep [("AUTHORIZATION".data, "x".data)]
      { secrets := { BEARER_AUTH_TOKEN := "t".data } } ⟨true, 200, [], []⟩ =
      .ok [("AUTHORIZATION".data, "x".data), ("Authorization".data, "Bearer t".data)]
  ∧ ([("AUTHORIZATION".data, "x".data), ("Authorization".data, "Bearer t".data)] : Headers)
      ≠ [("AUTHORIZATION".data, "x".data)] :=
  ⟨by decide, rfl, by decide⟩

/-- C5 amended: resolution is skipped exactly when the headers are truthy
under one of the two exact keys `Authorization` / `authorization` (other
casings do not skip); when it runs, a resolver success is assigned, a
failure whose message contains `No authentication configured` is swallowed
and every other failure — such as the fixed missing-OAuth2-config and
no-access-token messages — propagates. -/
theorem c5_auth_skip_and_swallow (headers : Headers) (context : AuthContext)
    (oracle : TokenResponse) :
    (headerTruthy headers "Authorization".data = true ∨
     headerTruthy headers "authorization".data = true →
       authStep headers context oracle = .ok headers)
  ∧ (headerTruthy headers "Authorization".data = false →
     headerTruthy headers "authorization".data = false →
       (∀ v, getAuthorizationHeader context oracle = .ok v →
          authStep headers context oracle = .ok (setHeader headers "Authorization".data v))
     ∧ (∀ e, getAuthorizationHeader context oracle = .error e →
          (charsContain noAuthMarker e = true →
             authStep headers context oracle = .ok headers)
        ∧ (charsContain noAuthMarker e = false →
             authStep headers context oracle = .error e)))
  ∧ charsContain noAuthMarker noAuthConfiguredMsg = true
  ∧ charsContain noAuthMarker missingOAuth2ConfigMsg = false
  ∧ charsContain noAuthMarker noAccessTokenMsg = false := by
  refine ⟨?_, ?_, by decide, by decide, by decide⟩
  · intro h
    simp [authStep, h]
  · intro h1 h2
    constructor
    · intro v hv
      simp [authStep, h1, h2, hv]
    · intro e he
      constructor
      · intro hc
        simp [authStep, h1, h2, he, hc]
      · intro hc
        simp [authStep, h1, h2, he, hc]

/-- Concrete instance of `c5_auth_skip_and_swallow`: exact-key
`authorization` already truthy, so the step returns the mapping unchanged
even though a bearer secret is configured. -/
theorem c5_witness :
    authStep [("authorization".data, "x".data)]
      { secrets := { BEARER_AUTH_TOKEN := "t".data } } ⟨true, 200, [], []⟩ =
      .ok [("authorization".data, "x".data)] :=
  (c5_auth_skip_and_swallow [("authorization".data, "x".data)]
      { secrets := { BEARER_AUTH_TOKEN := "t".data } } ⟨true, 200, [], []⟩).1
    (Or.inr (by decide))

theorem authStep_preserves_other (headers : Headers) (context : AuthContext)
    (oracle : TokenResponse) (h' : Headers)
    (hok : authStep headers context oracle = .ok h')
    (key : Str) (hne : key ≠ "Authorization".data) :
    headerTruthy h' key = headerTruthy headers key := by
  unfold authStep at hok
  split at hok
  · injection hok with h
    subst h
    rfl
  · split at hok
    · injection hok with h
      subst h
      exact headerTruthy_setHeader_other headers _ key _ hne
    · split at hok
      · injection hok with h
        subst h
        rfl
      · cases hok

/-- C8 as stated is false: an empty caller mapping with no auth configured
comes out of the pipeline with a computed `User-Agent` entry written into
it, so the caller's mapping is not left unchanged. -/
theorem c8_counterexample :
    invokeHeaders [] {} ⟨true, 200, [], []⟩ =
      .ok [("User-Agent".data, SGNL_USER_AGENT)]
  ∧ ([("User-Agent".data, SGNL_USER_AGENT)] : Headers) ≠ ([] : Headers) :=
  ⟨rfl, by decide⟩

/-- C8 amended: the pipeline writes computed headers into the very mapping
the caller supplied (reference, not shallow-copy, semantics); whenever the
caller's mapping had no truthy `User-Agent`/`user-agent` entry and the
invocation proceeds, the mapping afterwards carries the injected
`User-Agent` and therefore differs from the caller's original. -/
theorem c8_caller_mapping_mutated (headers : Headers) (context : AuthContext)
    (oracle : TokenResponse)
    (h1 : headerTruthy headers "User-Agent".data = false)
    (h2 : headerTruthy headers "user-agent".data = false) :
    ∀ after, invokeHeaders headers context oracle = .ok after →
      headerTruthy after "User-Agent".data = true ∧ after ≠ headers := by
  intro after hok
  unfold invokeHeaders at hok
  cases hstep : authStep headers context oracle with
  | error e =>
    rw [hstep] at hok
    cases hok
  | ok h' =>
    rw [hstep] at hok
    injection hok with hafter
    have pUA : headerTruthy h' "User-Agent".data = false := by
      rw [authStep_preserves_other headers context oracle h' hstep _ (by decide)]
      exact h1
    have pua : headerTruthy h' "user-agent".data = false := by
      rw [authStep_preserves_other headers context oracle h' hstep _ (by decide)]
      exact h2
    have hua : userAgentStep h' = setHeader h' "User-Agent".data SGNL_USER_AGENT := by
      unfold userAgentStep
      rw [if_neg]
      simp [pUA, pua]
    have htrue : headerTruthy after "User-Agent".data = true := by
      rw [← hafter, hua, headerTruthy, getHeader_setHeader_same]
      decide
    refine ⟨htrue, ?_⟩
    intro hcontra
    rw [hcontra, h1] at htrue
    cases htrue

/-- Concrete instance of `c8_caller_mapping_mutated`. -/
theorem c8_witness :
    headerTruthy [("User-Agent".data, SGNL_USER_AGENT)] "User-Agent".data = true
  ∧ ([("User-Agent".data, SGNL_USER_AGENT)] : Headers) ≠ ([] : Headers) :=
  c8_caller_mapping_mutated [] {} ⟨true, 200, [], []⟩ (by decide) (by decide)
    [("User-Agent".data, SGNL_USER_AGENT)] rfl
